import Mathlib

/-!
Verification of the Tool Governance & Live Registry Synchronization subsystem
(backend/core/tool_registry.py, backend/services/mcp_tool_bridge.py,
backend/services/mcp_client.py, backend/api/routes/tools.py), with the
lifecycle state machine of the governance service modelled from the design
document where its module is not part of the analysed sources.
-/

/-- Scalar JSON-serializable Python values appearing in tool parameters and
tool results. -/
inductive PyVal where
  | str (s : String)
  | int (i : Int)
  | bool (b : Bool)
  | none
deriving DecidableEq, Repr

/-- A Python `Dict[str, Any]` result value returned by a tool handle. -/
def RVal := List (String × PyVal)
deriving DecidableEq, Repr

/-- Keyword arguments a tool handle is called with by the `/tools/execute`
route: MCP tools receive the agent context, built-ins receive the raw params
(`backend/api/routes/tools.py`). -/
inductive RouteArgs where
  | mcp (agent_id agent_tier : String) (params : List (String × PyVal))
      (has_head_approval_token : Bool) (tool_name_override : Option String)
  | direct (params : List (String × PyVal))

/-- A tool handle: either returns a result dict or raises an exception
(modelled as `Except.error` carrying `str(exc)`). -/
def ToolFn := RouteArgs → Except String RVal

/-- One field of a declared parameter schema (`{"type": ..., "description": ...}`,
optionally with an `enum` hint). -/
structure SchemaField where
  fieldType : String
  description : String
  enum : List String := []

-- ── Python dict model ─────────────────────────────────────────────────────────
-- A Python `dict` is embedded as an association list with unique keys:
-- assignment replaces the value at an existing key, `del` removes the key.

/-- Lookup `d[k]` (also `dict.get`): first binding of `k`. -/
def dictGet (k : String) : List (String × α) → Option α
  | [] => Option.none
  | (k', v) :: rest => if k' = k then some v else dictGet k rest

/-- Assignment `d[k] = v`: replace the binding of `k` if present, else append. -/
def dictInsert (k : String) (v : α) : List (String × α) → List (String × α)
  | [] => [(k, v)]
  | (k', v') :: rest => if k' = k then (k, v) :: rest else (k', v') :: dictInsert k v rest

/-- Deletion `del d[k]`: the key `k` is no longer bound. -/
def dictErase (k : String) (d : List (String × α)) : List (String × α) :=
  d.filter (fun p => p.1 != k)

/-- Containment test `k in d`. -/
def dictContains (k : String) (d : List (String × α)) : Bool :=
  d.any (fun p => p.1 == k)

theorem dictGet_dictInsert_self (k : String) (v : α) (d : List (String × α)) :
    dictGet k (dictInsert k v d) = some v := by
  induction d with
  | nil => simp [dictGet, dictInsert]
  | cons p rest ih =>
    by_cases h : p.1 = k
    · simp [dictInsert, h, dictGet]
    · simp only [dictInsert]
      rw [if_neg h]
      simp [dictGet, h, ih]

theorem dictGet_dictInsert_ne (k k' : String) (v : α) (d : List (String × α))
    (h : k' ≠ k) : dictGet k (dictInsert k' v d) = dictGet k d := by
  induction d with
  | nil => simp [dictGet, dictInsert, h]
  | cons p rest ih =>
    by_cases hp : p.1 = k'
    · simp only [dictInsert]
      rw [if_pos hp, dictGet, dictGet, if_neg (hp ▸ h), hp, if_neg h]
    · simp only [dictInsert]
      rw [if_neg hp]
      by_cases hk : p.1 = k
      · simp [dictGet, hk]
      · simp [dictGet, hk, ih]

theorem dictGet_dictErase_self (k : String) (d : List (String × α)) :
    dictGet k (dictErase k d) = Option.none := by
  induction d with
  | nil => simp [dictGet, dictErase]
  | cons p rest ih =>
    by_cases h : p.1 = k
    · simpa [dictErase, h] using ih
    · simpa [dictErase, dictGet, h, bne_iff_ne] using ih

theorem dictGet_dictErase_ne (k k' : String) (d : List (String × α))
    (h : k' ≠ k) : dictGet k (dictErase k' d) = dictGet k d := by
  induction d with
  | nil => simp [dictGet, dictErase]
  | cons p rest ih =>
    by_cases hp : p.1 = k'
    · rw [dictErase] at ih ⊢
      simp only [List.filter]
      rw [show (p.1 != k') = false by simp [hp]]
      rw [dictGet, if_neg (hp ▸ h), ih]
    · rw [dictErase] at ih ⊢
      simp only [List.filter]
      rw [show (p.1 != k') = true by simp [hp]]
      by_cases hk : p.1 = k
      · simp [dictGet, hk]
      · simp [dictGet, hk, ih]

theorem dictContains_of_dictGet (k : String) (d : List (String × α)) (v : α)
    (h : dictGet k d = some v) : dictContains k d = true := by
  induction d with
  | nil => simp [dictGet] at h
  | cons p rest ih =>
    rw [dictGet] at h
    by_cases hp : p.1 = k
    · simp [dictContains, List.any, hp]
    · rw [if_neg hp] at h
      simpa [dictContains, List.any] using Or.inr (by simpa [dictContains] using ih h)

theorem mem_dictInsert (k : String) (v : α) (d : List (String × α)) (p : String × α)
    (h : p ∈ dictInsert k v d) : p = (k, v) ∨ p ∈ d := by
  induction d with
  | nil => simpa [dictInsert] using h
  | cons q rest ih =>
    rw [dictInsert] at h
    by_cases hq : q.1 = k
    · rw [if_pos hq] at h
      rcases List.mem_cons.mp h with h | h
      · exact Or.inl h
      · exact Or.inr (List.mem_cons.mpr (Or.inr h))
    · rw [if_neg hq] at h
      rcases List.mem_cons.mp h with h | h
      · exact Or.inr (List.mem_cons.mpr (Or.inl h))
      · rcases ih h with h | h
        · exact Or.inl h
        · exact Or.inr (List.mem_cons.mpr (Or.inr h))

-- ── Live Registry (backend/core/tool_registry.py) ─────────────────────────────

/-- One entry of `ToolRegistry.tools`: the dict stored by `register_tool`,
with the optional deprecation fields (`mark_deprecated`) and the MCP metadata
fields set by `MCPToolBridge._register` after registration. -/
structure ToolEntry where
  name : String
  description : String
  function : ToolFn
  parameters : List (String × SchemaField)
  authorized_tiers : List String
  deprecated : Bool := false
  deprecation_reason : Option String := Option.none
  replacement : Option String := Option.none
  is_mcp : Bool := false
  mcp_tool_id : Option String := Option.none
  mcp_tier : Option String := Option.none
  mcp_server_url : Option String := Option.none
  mcp_original_name : Option String := Option.none

/-- State `ToolRegistry.tools`: the in-memory name → entry dict. -/
abbrev Registry := List (String × ToolEntry)

namespace ToolRegistry

/-- Method `ToolRegistry.register_tool`: idempotent upsert; `authorized_tiers or []`
turns an absent argument into the empty list. -/
def register_tool (name description : String) (function : ToolFn)
    (parameters : List (String × SchemaField))
    (authorized_tiers : Option (List String)) (reg : Registry) : Registry :=
  dictInsert name
    { name := name
      description := description
      function := function
      parameters := parameters
      authorized_tiers := authorized_tiers.getD [] }
    reg

/-- Method `ToolRegistry.get_tool`. -/
def get_tool (name : String) (reg : Registry) : Option ToolEntry :=
  dictGet name reg

/-- Method `ToolRegistry.deregister_tool`: returns whether the key was present, and
the registry with the key removed. -/
def deregister_tool (name : String) (reg : Registry) : Bool × Registry :=
  if dictContains name reg then (true, dictErase name reg) else (false, reg)

/-- The descriptor dict built per tool by `ToolRegistry.list_tools`. -/
structure ToolDesc where
  description : String
  parameters : List (String × SchemaField)
  deprecated : Bool := false
  deprecation_reason : Option String := Option.none
  replacement : Option String := Option.none
  is_mcp : Bool := false
  mcp_tier : Option String := Option.none
  mcp_server_url : Option String := Option.none
  mcp_original_name : Option String := Option.none

/-- The per-entry descriptor of `list_tools` (deprecation and MCP metadata are
surfaced only when the corresponding flag is set). -/
def toolDescOf (t : ToolEntry) : ToolDesc :=
  { description := t.description
    parameters := t.parameters
    deprecated := t.deprecated
    deprecation_reason := if t.deprecated then t.deprecation_reason else Option.none
    replacement := if t.deprecated then t.replacement else Option.none
    is_mcp := t.is_mcp
    mcp_tier := if t.is_mcp then t.mcp_tier else Option.none
    mcp_server_url := if t.is_mcp then t.mcp_server_url else Option.none
    mcp_original_name := if t.is_mcp then t.mcp_original_name else Option.none }

/-- Method `ToolRegistry.list_tools`: the available-tools dict for one agent tier —
entries whose `authorized_tiers` contain the tier, keyed by name. -/
def list_tools (reg : Registry) (agent_tier : String) : List (String × ToolDesc) :=
  (reg.filter (fun p => p.2.authorized_tiers.contains agent_tier)).map
    (fun p => (p.1, toolDescOf p.2))

/-- The structured error result `{"status": "error", "error": msg}` returned
by the dispatchers instead of raising. -/
def errorResult (msg : String) : RVal :=
  [("status", PyVal.str "error"), ("error", PyVal.str msg)]

/-- Method `ToolRegistry.execute_tool_async`: resolve the name (unknown name → error
dict), call the handle (an exception → error dict with `str(exc)`), otherwise
return the handle's result.  Totality of this function is the "never
propagates an exception" guarantee. -/
def execute_tool_async (reg : Registry) (name : String) (args : RouteArgs) : RVal :=
  match get_tool name reg with
  | Option.none => errorResult ("Tool '" ++ name ++ "' not found")
  | some t =>
    match t.function args with
    | Except.error exc => errorResult exc
    | Except.ok result => result

/-- Method `ToolRegistry.execute_tool`: the synchronous path.  The asyncio bridging
(running loop detection, thread-pool fallback) only affects scheduling; the
observable value semantics are those of the same resolve / call / catch
structure. -/
def execute_tool (reg : Registry) (name : String) (args : RouteArgs) : RVal :=
  match get_tool name reg with
  | Option.none => errorResult ("Tool '" ++ name ++ "' not found")
  | some t =>
    match t.function args with
    | Except.error exc => errorResult exc
    | Except.ok result => result

end ToolRegistry

/-- Stand-in handle for the built-in tool implementations
(`BrowserTool.navigate`, `FileSystemTool.read_file`, ...).  Their bodies
perform process I/O outside the embedded fragment; no claim depends on their
behaviour, only on how the registry stores and gates them. -/
def builtinFn (toolName : String) : ToolFn :=
  fun _ => Except.ok [("tool", PyVal.str toolName)]

/-- Startup registrations of `ToolRegistry`: the five built-in registrations run at
construction, in source order.  `browser_screenshot` passes no
`authorized_tiers`, so it is stored with the empty list. -/
def initialRegistry : Registry :=
  ToolRegistry.register_tool "execute_command"
    "Execute shell command on host system" (builtinFn "execute_command")
    [("command", { fieldType := "array", description := "Command and args as list" }),
     ("timeout", { fieldType := "integer", description := "Timeout in seconds" })]
    (some ["0xxxx", "1xxxx"])
    (ToolRegistry.register_tool "write_file"
      "Write content to file (Head only)" (builtinFn "write_file")
      [("filepath", { fieldType := "string", description := "Absolute file path" }),
       ("content", { fieldType := "string", description := "Content to write" })]
      (some ["0xxxx"])
      (ToolRegistry.register_tool "read_file"
        "Read file contents from host filesystem" (builtinFn "read_file")
        [("filepath", { fieldType := "string", description := "Absolute file path" }),
         ("limit", { fieldType := "integer", description := "Max characters to read" })]
        (some ["0xxxx", "1xxxx", "2xxxx"])
        (ToolRegistry.register_tool "browser_screenshot"
          "Take screenshot of current page" (builtinFn "browser_screenshot")
          [("path", { fieldType := "string", description := "Save path for screenshot" })]
          Option.none
          (ToolRegistry.register_tool "browser_control"
            "Control web browser for navigation, form filling, and data extraction"
            (builtinFn "browser_control")
            [("url", { fieldType := "string", description := "URL to navigate to" })]
            (some ["0xxxx", "1xxxx"])
            []))))

-- ── MCP tool record and bridge (backend/services/mcp_tool_bridge.py) ──────────

/-- Status / tier string constants re-exported by the governance module
(values as documented on the `MCPTool` entity columns and in the bridge's
module docstring). -/
def STATUS_APPROVED : String := "approved"

def TIER_PRE_APPROVED : String := "pre_approved"

def TIER_RESTRICTED : String := "restricted"

def TIER_FORBIDDEN : String := "forbidden"

/-- The fields of the persisted `MCPTool` row that the bridge reads
(`backend/models/entities/mcp_tool.py`); `is_active` is the soft-delete flag
declared on the shared base entity and filtered on by `sync_all`. -/
structure MCPTool where
  id : String
  name : String
  description : String
  server_url : String
  tier : String := "restricted"
  status : String := "pending"
  capabilities : List String := []
  is_active : Bool := true

namespace MCPToolBridge

/-- Table `_TIER_TO_AUTHORIZED`: tier → agent tiers that may call the tool. -/
def TIER_TO_AUTHORIZED : List (String × List String) :=
  [(TIER_PRE_APPROVED, ["0xxxx", "1xxxx", "2xxxx", "3xxxx"]),
   (TIER_RESTRICTED, ["0xxxx", "1xxxx"]),
   (TIER_FORBIDDEN, [])]

/-- Lookup `_TIER_TO_AUTHORIZED.get(tier, [])` as used by `_register`. -/
def tierToAuthorized (tier : String) : List String :=
  (dictGet tier TIER_TO_AUTHORIZED).getD []

/-- Helper `_registry_name`: canonical registry key `'mcp__<tool.name>'`. -/
def registryName (tool : MCPTool) : String :=
  "mcp__" ++ tool.name

/-- Closure builder `_build_invoke_fn`: the dispatch closure carries only the tool id (plus
the DB factory); invoking it re-enters the governance service's
`execute_mcp_tool`, modelled by the `execGov` parameter. -/
def buildInvokeFn (execGov : String → RouteArgs → Except String RVal)
    (tool_id : String) : ToolFn :=
  fun args => execGov tool_id args

/-- The `params_schema` dict built by `_register`; the `tool_name_override`
enum hint is added only when the tool's capability list is non-empty. -/
def paramsSchemaFor (tool : MCPTool) : List (String × SchemaField) :=
  let base : List (String × SchemaField) :=
    [("params",
      { fieldType := "object", description := "Key-value pairs passed to the MCP tool" }),
     ("has_head_approval_token",
      { fieldType := "boolean", description := "Required for restricted-tier tools" })]
  if tool.capabilities.isEmpty then base
  else
    dictInsert "tool_name_override"
      { fieldType := "string", description := "Specific sub-tool to invoke",
        enum := tool.capabilities }
      base

/-- Method `MCPToolBridge._register`: build the invocation closure, register the
entry under `mcp__<name>` with the tier-derived authorized callers, then tag
the stored entry with the MCP metadata fields. -/
def bridgeRegister (execGov : String → RouteArgs → Except String RVal)
    (tool : MCPTool) (reg : Registry) : Registry :=
  let key := registryName tool
  let reg' := ToolRegistry.register_tool key
    ("[MCP/" ++ tool.tier.toUpper ++ "] " ++ tool.description)
    (buildInvokeFn execGov tool.id) (paramsSchemaFor tool)
    (some (tierToAuthorized tool.tier)) reg
  match dictGet key reg' with
  | Option.none => reg'
  | some e =>
    dictInsert key
      { e with
        is_mcp := true
        mcp_tool_id := some tool.id
        mcp_tier := some tool.tier
        mcp_server_url := some tool.server_url
        mcp_original_name := some tool.name }
      reg'

/-- The filter of `sync_all`'s query:
`status == approved ∧ tier ≠ forbidden ∧ is_active`. -/
def syncQuery (t : MCPTool) : Bool :=
  t.status == STATUS_APPROVED && t.tier != TIER_FORBIDDEN && t.is_active

/-- Method `MCPToolBridge.sync_all`: load every row matching `syncQuery`, register
each, return the count registered together with the resulting registry. -/
def sync_all (execGov : String → RouteArgs → Except String RVal)
    (db : List MCPTool) (reg : Registry) : Nat × Registry :=
  (db.filter syncQuery).foldl
    (fun acc t => (acc.1 + 1, bridgeRegister execGov t acc.2)) (0, reg)

/-- Method `MCPToolBridge.sync_one`: skip forbidden-tier tools, skip non-approved
tools, otherwise (re)register. -/
def sync_one (execGov : String → RouteArgs → Except String RVal)
    (tool : MCPTool) (reg : Registry) : Registry :=
  if tool.tier == TIER_FORBIDDEN then reg
  else if tool.status != STATUS_APPROVED then reg
  else bridgeRegister execGov tool reg

/-- Method `MCPToolBridge.deregister`: remove the tool's registry key; returns the
`deregister_tool` removal flag alongside the registry. -/
def deregister (tool : MCPTool) (reg : Registry) : Bool × Registry :=
  ToolRegistry.deregister_tool (registryName tool) reg

end MCPToolBridge

/-- No live-registry entry carries a forbidden-tier governance linkage. -/
def noForbiddenMCPEntry (reg : Registry) : Prop :=
  ∀ p ∈ reg, p.2.mcp_tier ≠ some TIER_FORBIDDEN

-- ── /tools/execute route (backend/api/routes/tools.py) ────────────────────────

/-- Outcome of the `/tools/execute` route: an `HTTPException` with a status
code, or the dispatched result. -/
inductive RouteResult where
  | httpError (code : Nat) (detail : String)
  | ok (v : RVal)

/-- The `/tools/execute` route: resolve the tool (404 if unknown), gate on the
agent tier (403 if not authorised), then dispatch — MCP tools receive the full
agent context, built-ins receive only the user-supplied params. -/
def executeRoute (reg : Registry) (tool_name : String)
    (params : List (String × PyVal)) (has_head_approval_token : Bool)
    (tool_name_override : Option String) (agent_tier agent_id : String) :
    RouteResult :=
  match ToolRegistry.get_tool tool_name reg with
  | Option.none => .httpError 404 ("Tool '" ++ tool_name ++ "' not found")
  | some tool =>
    if !(tool.authorized_tiers.contains agent_tier) then
      .httpError 403
        ("Agent tier '" ++ agent_tier ++ "' is not authorised to use '" ++ tool_name ++ "'")
    else if tool.is_mcp then
      .ok (ToolRegistry.execute_tool_async reg tool_name
        (.mcp agent_id agent_tier params has_head_approval_token tool_name_override))
    else
      .ok (ToolRegistry.execute_tool_async reg tool_name (.direct params))

-- ── Governance lifecycle state machine ────────────────────────────────────────
-- The governance service module (backend/services/mcp_governance.py) is not
-- among the analysed sources; the pure lifecycle model below follows the
-- design document §4.1 (Tool Descriptor & Lifecycle Model).

/-- Modelled from the spec: descriptor lifecycle status
`{proposed, approved, rejected, revoked, disabled}` (§3); the governance
module itself is not among the analysed sources. -/
inductive GStatus where
  | proposed | approved | rejected | revoked | disabled
deriving DecidableEq, Repr

/-- Modelled from the spec: tool tier `{pre_approved, restricted, forbidden}`,
fixed at proposal time (§3). -/
inductive GTier where
  | pre_approved | restricted | forbidden
deriving DecidableEq, Repr

/-- Modelled from the spec: health classification (§3). -/
inductive GHealth where
  | healthy | degraded | down | unknown
deriving DecidableEq, Repr

/-- Modelled from the spec: the error taxonomy of §7 restricted to the
lifecycle operations. -/
inductive GErr where
  | validationError | invalidTransition | notFound
deriving DecidableEq, Repr

/-- Modelled from the spec: the authoritative ToolDescriptor governance
record (§3), restricted to the fields the lifecycle operations read or
write. -/
structure GDescriptor where
  name : String
  tier : GTier
  status : GStatus
  approved_by : Option String := Option.none
  approval_reference : Option String := Option.none
  revoked_by : Option String := Option.none
  revocation_reason : Option String := Option.none
  health : GHealth := .unknown
  failure_count : Nat := 0
  consecutive_failures : Nat := 0
deriving DecidableEq, Repr

/-- Modelled from the spec: `propose(name, description, address, tier,
capabilities, proposer)` — fails with `ValidationError` if the name already
exists; the new descriptor starts in status `proposed` (§4.1). -/
def gPropose (existing : List String) (name : String) (tier : GTier) :
    Except GErr GDescriptor :=
  if existing.contains name then .error .validationError
  else .ok { name := name, tier := tier, status := .proposed }

/-- Modelled from the spec: `approve(descriptor, approver, reference)` —
fails with `InvalidTransition` if `status ≠ proposed` or `tier = forbidden`
(§4.1). -/
def gApprove (d : GDescriptor) (approver reference : String) :
    Except GErr GDescriptor :=
  if d.status ≠ GStatus.proposed ∨ d.tier = GTier.forbidden then
    .error .invalidTransition
  else
    .ok { d with
      status := .approved
      approved_by := some approver
      approval_reference := some reference }

/-- Modelled from the spec: `revoke(descriptor, revoker, reason)` — fails
with `InvalidTransition` if `status ≠ approved`, with `ValidationError` on an
empty reason (§4.1). -/
def gRevoke (d : GDescriptor) (revoker reason : String) :
    Except GErr GDescriptor :=
  if d.status ≠ GStatus.approved then .error .invalidTransition
  else if reason = "" then .error .validationError
  else
    .ok { d with
      status := .revoked
      revoked_by := some revoker
      revocation_reason := some reason }

/-- Modelled from the spec: `record_health(descriptor, healthy, latency)` —
updates health and failure counters only, never the lifecycle status; a
success resets `consecutive_failures`, a failure increments both counters and
degrades (`down` past the consecutive-failure threshold) (§4.1, §4.2). -/
def gRecordHealth (threshold : Nat) (d : GDescriptor) (healthy : Bool) :
    GDescriptor :=
  if healthy then
    { d with health := .healthy, consecutive_failures := 0 }
  else
    let cf := d.consecutive_failures + 1
    { d with
      health := if threshold ≤ cf then .down else .degraded
      failure_count := d.failure_count + 1
      consecutive_failures := cf }

/-- Modelled from the spec: one lifecycle operation attempt on a
descriptor. -/
inductive GOp where
  | approve (approver reference : String)
  | revoke (revoker reason : String)
  | recordHealth (threshold : Nat) (healthy : Bool)

/-- Modelled from the spec: applying one operation attempt — a failing
operation leaves the descriptor unchanged. -/
def applyOp (d : GDescriptor) : GOp → GDescriptor
  | .approve a r =>
    match gApprove d a r with
    | .ok d' => d'
    | .error _ => d
  | .revoke a r =>
    match gRevoke d a r with
    | .ok d' => d'
    | .error _ => d
  | .recordHealth t h => gRecordHealth t d h

/-- A whole sequence of lifecycle operation attempts. -/
def applyOps (d : GDescriptor) (ops : List GOp) : GDescriptor :=
  ops.foldl applyOp d

-- ── Audit fingerprint (backend/services/mcp_client.py, hash_params) ───────────
-- `hash_params` serializes the params with `json.dumps(params, sort_keys=True)`
-- and returns the first 16 characters of the SHA-256 hex digest.  SHA-256 is
-- embedded below over byte lists, with 32-bit words as `Nat` reduced mod 2^32.

/-- 32-bit addition. -/
def add32 (a b : Nat) : Nat := (a + b) % 4294967296

/-- 32-bit right rotation. -/
def rotr32 (x n : Nat) : Nat := ((x >>> n) ||| (x <<< (32 - n))) % 4294967296

/-- SHA-256 `Ch(x, y, z)`. -/
def chWord (x y z : Nat) : Nat := (x &&& y) ^^^ ((x ^^^ 4294967295) &&& z)

/-- SHA-256 `Maj(x, y, z)`. -/
def majWord (x y z : Nat) : Nat := (x &&& y) ^^^ (x &&& z) ^^^ (y &&& z)

/-- SHA-256 `Σ₀`. -/
def bigSigma0 (x : Nat) : Nat := rotr32 x 2 ^^^ rotr32 x 13 ^^^ rotr32 x 22

/-- SHA-256 `Σ₁`. -/
def bigSigma1 (x : Nat) : Nat := rotr32 x 6 ^^^ rotr32 x 11 ^^^ rotr32 x 25

/-- SHA-256 `σ₀`. -/
def smallSigma0 (x : Nat) : Nat := rotr32 x 7 ^^^ rotr32 x 18 ^^^ (x >>> 3)

/-- SHA-256 `σ₁`. -/
def smallSigma1 (x : Nat) : Nat := rotr32 x 17 ^^^ rotr32 x 19 ^^^ (x >>> 10)

/-- The 64 SHA-256 round constants. -/
def K256 : List Nat :=
  [1116352408, 1899447441, 3049323471, 3921009573, 961987163,
   1508970993, 2453635748, 2870763221, 3624381080, 310598401,
   607225278, 1426881987, 1925078388, 2162078206, 2614888103,
   3248222580, 3835390401, 4022224774, 264347078, 604807628,
   770255983, 1249150122, 1555081692, 1996064986, 2554220882,
   2821834349, 2952996808, 3210313671, 3336571891, 3584528711,
   113926993, 338241895, 666307205, 773529912, 1294757372,
   1396182291, 1695183700, 1986661051, 2177026350, 2456956037,
   2730485921, 2820302411, 3259730800, 3345764771, 3516065817,
   3600352804, 4094571909, 275423344, 430227734, 506948616,
   659060556, 883997877, 958139571, 1322822218, 1537002063,
   1747873779, 1955562222, 2024104815, 2227730452, 2361852424,
   2428436474, 2756734187, 3204031479, 3329325298]

/-- The eight 32-bit working variables of the SHA-256 state. -/
structure Hash8 where
  a : Nat
  b : Nat
  c : Nat
  d : Nat
  e : Nat
  f : Nat
  g : Nat
  h : Nat

/-- The SHA-256 initial hash value. -/
def initialHash : Hash8 :=
  ⟨1779033703, 3144134277, 1013904242, 2773480762,
   1359893119, 2600822924, 528734635, 1541459225⟩

/-- SHA-256 padding: append `0x80`, zeros to 56 mod 64, then the bit length
as eight big-endian bytes. -/
def padMessage (msg : List Nat) : List Nat :=
  let bitLen := msg.length * 8
  let padZeros := (119 - msg.length % 64) % 64
  msg ++ [0x80] ++ List.replicate padZeros 0 ++
    [(bitLen >>> 56) % 256, (bitLen >>> 48) % 256, (bitLen >>> 40) % 256,
     (bitLen >>> 32) % 256, (bitLen >>> 24) % 256, (bitLen >>> 16) % 256,
     (bitLen >>> 8) % 256, bitLen % 256]

/-- Split a byte list into 64-byte blocks. -/
def toBlocks : List Nat → List (List Nat)
  | [] => []
  | b :: rest => ((b :: rest).take 64) :: toBlocks ((b :: rest).drop 64)
termination_by l => l.length
decreasing_by
  simp [List.length_drop]
  omega

/-- The sixteen big-endian 32-bit words of one 64-byte block. -/
def blockWords (block : List Nat) : Array Nat :=
  (List.range 16).foldl
    (fun arr i =>
      arr.push
        ((((block.getD (4 * i) 0) * 256 + block.getD (4 * i + 1) 0) * 256 +
            block.getD (4 * i + 2) 0) * 256 + block.getD (4 * i + 3) 0))
    #[]

/-- Extend the sixteen block words to the 64-entry message schedule. -/
def extendSchedule (w0 : Array Nat) : Array Nat :=
  (List.range 48).foldl
    (fun w i =>
      w.push
        (add32 (add32 (w.getD i 0) (smallSigma0 (w.getD (i + 1) 0)))
          (add32 (smallSigma1 (w.getD (i + 14) 0)) (w.getD (i + 9) 0))))
    w0

/-- The SHA-256 compression function for one block. -/
def compressBlock (h0 : Hash8) (w16 : Array Nat) : Hash8 :=
  let w := extendSchedule w16
  let s := (List.range 64).foldl
    (fun (s : Hash8) i =>
      let t1 := add32 s.h
        (add32 (bigSigma1 s.e)
          (add32 (chWord s.e s.f s.g) (add32 (K256.getD i 0) (w.getD i 0))))
      let t2 := add32 (bigSigma0 s.a) (majWord s.a s.b s.c)
      ⟨add32 t1 t2, s.a, s.b, s.c, add32 s.d t1, s.e, s.f, s.g⟩)
    h0
  ⟨add32 h0.a s.a, add32 h0.b s.b, add32 h0.c s.c, add32 h0.d s.d,
   add32 h0.e s.e, add32 h0.f s.f, add32 h0.g s.g, add32 h0.h s.h⟩

/-- The SHA-256 state after absorbing a whole byte message. -/
def sha256state (msg : List Nat) : Hash8 :=
  (toBlocks (padMessage msg)).foldl (fun h blk => compressBlock h (blockWords blk))
    initialHash

/-- One lowercase hexadecimal digit. -/
def nibbleChar (n : Nat) : Char :=
  "0123456789abcdef".data.getD (n % 16) '0'

/-- The eight hex digits of one 32-bit word. -/
def wordHex (w : Nat) : List Char :=
  [nibbleChar (w >>> 28), nibbleChar (w >>> 24), nibbleChar (w >>> 20),
   nibbleChar (w >>> 16), nibbleChar (w >>> 12), nibbleChar (w >>> 8),
   nibbleChar (w >>> 4), nibbleChar w]

/-- Digest `hashlib.sha256(bytes).hexdigest()`: the 64 hex characters of the
digest. -/
def sha256hexChars (msg : List Nat) : List Char :=
  let s := sha256state msg
  wordHex s.a ++ wordHex s.b ++ wordHex s.c ++ wordHex s.d ++
    wordHex s.e ++ wordHex s.f ++ wordHex s.g ++ wordHex s.h

/-- Escape `\uXXXX` of a 16-bit code unit. -/
def uEscape (n : Nat) : List Char :=
  ['\\', 'u', nibbleChar (n >>> 12), nibbleChar (n >>> 8), nibbleChar (n >>> 4),
   nibbleChar n]

/-- Character escaping of `json.dumps` with the default `ensure_ascii=True`:
short escapes for the common controls, printable ASCII verbatim, `\uXXXX`
(surrogate pairs beyond the BMP) for everything else. -/
def jsonEscapeChar (c : Char) : List Char :=
  if c = '"' then ['\\', '"']
  else if c = '\\' then ['\\', '\\']
  else if c = '\n' then ['\\', 'n']
  else if c = '\t' then ['\\', 't']
  else if c = '\r' then ['\\', 'r']
  else if c.toNat = 8 then ['\\', 'b']
  else if c.toNat = 12 then ['\\', 'f']
  else if 32 ≤ c.toNat ∧ c.toNat ≤ 126 then [c]
  else if c.toNat < 65536 then uEscape c.toNat
  else
    uEscape (55296 + ((c.toNat - 65536) >>> 10)) ++
      uEscape (56320 + ((c.toNat - 65536) % 1024))

/-- A JSON string literal. -/
def jsonQuote (s : String) : String :=
  "\"" ++ String.mk (s.data.foldr (fun c acc => jsonEscapeChar c ++ acc) []) ++ "\""

/-- Serialization `json.dumps` of one scalar value. -/
def dumpsVal : PyVal → String
  | .str s => jsonQuote s
  | .int i => toString i
  | .bool b => if b then "true" else "false"
  | .none => "null"

/-- Key order used by `sort_keys=True`: code-point order on the keys. -/
def keyLe (a b : String × PyVal) : Prop := a.1 ≤ b.1

instance : DecidableRel keyLe := fun a b => inferInstanceAs (Decidable (a.1 ≤ b.1))

instance : IsTotal (String × PyVal) keyLe := ⟨fun a b => le_total a.1 b.1⟩

instance : IsTrans (String × PyVal) keyLe := ⟨fun _ _ _ h1 h2 => le_trans h1 h2⟩

/-- Strict key order, used to identify the two sorted serializations. -/
def keyLt (a b : String × PyVal) : Prop := a.1 < b.1

instance : IsAntisymm (String × PyVal) keyLt := ⟨fun _ _ h1 h2 => absurd h2 (lt_asymm h1)⟩

/-- Serialization `json.dumps(params, sort_keys=True, default=str)` on a params dict: the
items in sorted key order, with the default `", "` / `": "` separators. -/
def jsonDumpsSorted (p : List (String × PyVal)) : String :=
  let sorted := p.insertionSort keyLe
  "\x7b" ++
    String.intercalate ", "
      (sorted.map (fun kv => jsonQuote kv.1 ++ ": " ++ dumpsVal kv.2)) ++
    "\x7d"

/-- The serializer output is ASCII (`ensure_ascii=True`), so its UTF-8 bytes
are exactly its code points. -/
def strBytes (s : String) : List Nat := s.data.map Char.toNat

/-- Fingerprint `MCPClient.hash_params`: the first 16 hex characters of the SHA-256 digest
of the canonically serialized params. -/
def hash_params (p : List (String × PyVal)) : String :=
  String.mk ((sha256hexChars (strBytes (jsonDumpsSorted p))).take 16)

-- ── Bridge helper lemmas ──────────────────────────────────────────────────────

namespace MCPToolBridge

/-- The entry as stored by `register_tool` inside `_register`, before the MCP
metadata tagging. -/
def baseEntry (execGov : String → RouteArgs → Except String RVal)
    (tool : MCPTool) : ToolEntry :=
  { name := registryName tool
    description := "[MCP/" ++ tool.tier.toUpper ++ "] " ++ tool.description
    function := buildInvokeFn execGov tool.id
    parameters := paramsSchemaFor tool
    authorized_tiers := tierToAuthorized tool.tier }

/-- The entry as it sits in the registry after `_register` finishes: the base
entry tagged with the MCP metadata. -/
def mcpEntry (execGov : String → RouteArgs → Except String RVal)
    (tool : MCPTool) : ToolEntry :=
  { baseEntry execGov tool with
    is_mcp := true
    mcp_tool_id := some tool.id
    mcp_tier := some tool.tier
    mcp_server_url := some tool.server_url
    mcp_original_name := some tool.name }

theorem bridgeRegister_eq (execGov : String → RouteArgs → Except String RVal)
    (tool : MCPTool) (reg : Registry) :
    bridgeRegister execGov tool reg =
      dictInsert (registryName tool) (mcpEntry execGov tool)
        (dictInsert (registryName tool) (baseEntry execGov tool) reg) := by
  simp [bridgeRegister, ToolRegistry.register_tool, baseEntry, mcpEntry,
    dictGet_dictInsert_self]

theorem bridgeRegister_get_self (execGov : String → RouteArgs → Except String RVal)
    (tool : MCPTool) (reg : Registry) :
    dictGet (registryName tool) (bridgeRegister execGov tool reg) =
      some (mcpEntry execGov tool) := by
  rw [bridgeRegister_eq, dictGet_dictInsert_self]

theorem bridgeRegister_get_ne (execGov : String → RouteArgs → Except String RVal)
    (tool : MCPTool) (reg : Registry) (k : String)
    (h : registryName tool ≠ k) :
    dictGet k (bridgeRegister execGov tool reg) = dictGet k reg := by
  rw [bridgeRegister_eq, dictGet_dictInsert_ne _ _ _ _ h,
    dictGet_dictInsert_ne _ _ _ _ h]

theorem bridgeRegister_get_ne_none (execGov : String → RouteArgs → Except String RVal)
    (tool : MCPTool) (reg : Registry) (k : String)
    (h : dictGet k reg ≠ Option.none) :
    dictGet k (bridgeRegister execGov tool reg) ≠ Option.none := by
  by_cases hk : registryName tool = k
  · subst hk
    rw [bridgeRegister_get_self]
    simp
  · rwa [bridgeRegister_get_ne _ _ _ _ hk]

theorem mem_bridgeRegister (execGov : String → RouteArgs → Except String RVal)
    (tool : MCPTool) (reg : Registry) (p : String × ToolEntry)
    (h : p ∈ bridgeRegister execGov tool reg) :
    p = (registryName tool, mcpEntry execGov tool) ∨
      p = (registryName tool, baseEntry execGov tool) ∨ p ∈ reg := by
  rw [bridgeRegister_eq] at h
  rcases mem_dictInsert _ _ _ _ h with h | h
  · exact Or.inl h
  · rcases mem_dictInsert _ _ _ _ h with h | h
    · exact Or.inr (Or.inl h)
    · exact Or.inr (Or.inr h)

/-- A tool retained by `sync_all`'s query is not forbidden-tier. -/
theorem syncQuery_not_forbidden (t : MCPTool) (h : syncQuery t = true) :
    t.tier ≠ TIER_FORBIDDEN := by
  rcases Bool.and_eq_true_iff.mp h with ⟨h1, _⟩
  rcases Bool.and_eq_true_iff.mp h1 with ⟨_, h3⟩
  exact bne_iff_ne.mp h3

end MCPToolBridge

namespace MCPToolBridge

theorem noForbidden_bridgeRegister (execGov : String → RouteArgs → Except String RVal)
    (tool : MCPTool) (reg : Registry) (ht : tool.tier ≠ TIER_FORBIDDEN)
    (h : noForbiddenMCPEntry reg) :
    noForbiddenMCPEntry (bridgeRegister execGov tool reg) := by
  intro p hp
  rcases mem_bridgeRegister _ _ _ _ hp with rfl | rfl | hp
  · simpa [mcpEntry, baseEntry] using ht
  · simp [baseEntry]
  · exact h p hp

theorem noForbidden_syncFold (execGov : String → RouteArgs → Except String RVal)
    (l : List MCPTool) (acc : Nat × Registry)
    (hl : ∀ t ∈ l, t.tier ≠ TIER_FORBIDDEN)
    (h : noForbiddenMCPEntry acc.2) :
    noForbiddenMCPEntry
      (l.foldl (fun acc t => (acc.1 + 1, bridgeRegister execGov t acc.2)) acc).2 := by
  induction l generalizing acc with
  | nil => simpa using h
  | cons t rest ih =>
    simp only [List.foldl_cons]
    exact ih _ (fun u hu => hl u (List.mem_cons.mpr (Or.inr hu)))
      (noForbidden_bridgeRegister execGov t acc.2 (hl t (List.mem_cons.mpr (Or.inl rfl))) h)

end MCPToolBridge

/-- C1: neither `sync_all` nor `sync_one` ever creates a live-registry entry
whose governance linkage tier is forbidden — `sync_all`'s query excludes
forbidden-tier rows and `sync_one` returns without registering, so a registry
holding no forbidden-linked entry still holds none after either
operation. -/
theorem c1_bridge_never_projects_forbidden
    (execGov : String → RouteArgs → Except String RVal)
    (db : List MCPTool) (tool : MCPTool) (reg : Registry)
    (h : noForbiddenMCPEntry reg) :
    noForbiddenMCPEntry (MCPToolBridge.sync_all execGov db reg).2 ∧
    noForbiddenMCPEntry (MCPToolBridge.sync_one execGov tool reg) := by
  constructor
  · rw [MCPToolBridge.sync_all]
    exact MCPToolBridge.noForbidden_syncFold execGov _ (0, reg)
      (fun t ht => MCPToolBridge.syncQuery_not_forbidden t (List.of_mem_filter ht)) h
  · rw [MCPToolBridge.sync_one]
    by_cases hf : tool.tier == TIER_FORBIDDEN
    · rw [if_pos hf]
      exact h
    · rw [if_neg hf]
      by_cases hs : tool.status != STATUS_APPROVED
      · rw [if_pos hs]
        exact h
      · rw [if_neg hs]
        exact MCPToolBridge.noForbidden_bridgeRegister execGov tool reg
          (by simpa using hf) h

/-- A sample approved pre-approved tool. -/
def sampleApproved : MCPTool :=
  { id := "11111111", name := "web_search", description := "search the web",
    server_url := "npx @search/mcp", tier := TIER_PRE_APPROVED,
    status := STATUS_APPROVED }

/-- A sample forbidden-tier tool (approved status would not matter). -/
def sampleForbidden : MCPTool :=
  { id := "22222222", name := "raw_disk", description := "raw disk access",
    server_url := "npx @disk/mcp", tier := TIER_FORBIDDEN,
    status := STATUS_APPROVED }

/-- A trivial stand-in for the governance execution closure. -/
def execGovStub : String → RouteArgs → Except String RVal :=
  fun _ _ => Except.ok []

/-- Witness for C1 at the built-in registry, a store containing a forbidden
tool, and the forbidden tool itself. -/
theorem c1_witness :
    noForbiddenMCPEntry initialRegistry ∧
    noForbiddenMCPEntry
      (MCPToolBridge.sync_all execGovStub [sampleApproved, sampleForbidden]
        initialRegistry).2 ∧
    noForbiddenMCPEntry
      (MCPToolBridge.sync_one execGovStub sampleForbidden initialRegistry) := by
  have h0 : noForbiddenMCPEntry initialRegistry := by
    intro p hp
    simp [initialRegistry, ToolRegistry.register_tool, dictInsert] at hp
    rcases hp with rfl | rfl | rfl | rfl | rfl <;> simp
  exact ⟨h0,
    (c1_bridge_never_projects_forbidden execGovStub _ sampleForbidden _ h0).1,
    (c1_bridge_never_projects_forbidden execGovStub [] sampleForbidden _ h0).2⟩

-- ── C2: forbidden tier never approved (spec-modelled lifecycle) ───────────────

theorem gApprove_forbidden (d : GDescriptor) (a r : String)
    (h : d.tier = GTier.forbidden) :
    gApprove d a r = Except.error GErr.invalidTransition := by
  rw [gApprove, if_pos (Or.inr h)]

theorem applyOp_tier (d : GDescriptor) (op : GOp) : (applyOp d op).tier = d.tier := by
  cases op with
  | approve a r =>
    rw [applyOp]
    rw [gApprove]
    by_cases h : d.status ≠ GStatus.proposed ∨ d.tier = GTier.forbidden
    · rw [if_pos h]
    · rw [if_neg h]
  | revoke a r =>
    rw [applyOp]
    rw [gRevoke]
    by_cases h : d.status ≠ GStatus.approved
    · rw [if_pos h]
    · rw [if_neg h]
      by_cases h2 : r = ""
      · rw [if_pos h2]
      · rw [if_neg h2]
  | recordHealth t hb =>
    rw [applyOp, gRecordHealth]
    by_cases h : hb <;> simp [h]

theorem applyOp_not_approved (d : GDescriptor) (op : GOp)
    (htier : d.tier = GTier.forbidden) (hst : d.status ≠ GStatus.approved) :
    (applyOp d op).status ≠ GStatus.approved := by
  cases op with
  | approve a r =>
    rw [applyOp, gApprove_forbidden d a r htier]
    exact hst
  | revoke a r =>
    rw [applyOp]
    rw [gRevoke, if_pos hst]
    exact hst
  | recordHealth t hb =>
    rw [applyOp, gRecordHealth]
    by_cases h : hb <;> simp [h] <;> exact hst

/-- C2: with the lifecycle operations modelled from the spec (the governance
module is not among the analysed sources), a forbidden-tier descriptor's
status never becomes `approved` under any sequence of operation attempts, and
every approve attempt on it fails with `InvalidTransition`. -/
theorem c2_forbidden_never_approved (d : GDescriptor) (ops : List GOp)
    (htier : d.tier = GTier.forbidden) (hst : d.status ≠ GStatus.approved) :
    (applyOps d ops).tier = GTier.forbidden ∧
    (applyOps d ops).status ≠ GStatus.approved ∧
    ∀ a r, gApprove (applyOps d ops) a r = Except.error GErr.invalidTransition := by
  induction ops generalizing d with
  | nil =>
    exact ⟨htier, hst, fun a r => gApprove_forbidden _ a r htier⟩
  | cons op rest ih =>
    simp only [applyOps, List.foldl_cons] at ih ⊢
    exact ih (applyOp d op) ((applyOp_tier d op).trans htier)
      (applyOp_not_approved d op htier hst)

/-- A freshly proposed forbidden-tier descriptor. -/
def forbiddenProposed : GDescriptor :=
  { name := "raw_disk", tier := GTier.forbidden, status := GStatus.proposed }

/-- A sample operation sequence attacking the forbidden descriptor. -/
def attackOps : List GOp :=
  [GOp.approve "head" "vote-1", GOp.recordHealth 3 false,
   GOp.recordHealth 3 true, GOp.revoke "head" "cleanup",
   GOp.approve "council" "vote-2"]

/-- Witness for C2 at a concrete forbidden descriptor and operation
sequence. -/
theorem c2_witness :
    forbiddenProposed.tier = GTier.forbidden ∧
    forbiddenProposed.status ≠ GStatus.approved ∧
    (applyOps forbiddenProposed attackOps).status ≠ GStatus.approved ∧
    gApprove (applyOps forbiddenProposed attackOps) "head" "vote-3" =
      Except.error GErr.invalidTransition := by
  refine ⟨rfl, by decide, ?_, ?_⟩
  · exact (c2_forbidden_never_approved forbiddenProposed attackOps rfl (by decide)).2.1
  · exact (c2_forbidden_never_approved forbiddenProposed attackOps rfl (by decide)).2.2
      "head" "vote-3"

-- ── C3: approve→sync→resolve / deregister→absent round trip ───────────────────

namespace MCPToolBridge

theorem sync_one_noop (execGov : String → RouteArgs → Except String RVal)
    (tool : MCPTool) (reg : Registry)
    (h : tool.tier = TIER_FORBIDDEN ∨ tool.status ≠ STATUS_APPROVED) :
    sync_one execGov tool reg = reg := by
  rw [sync_one]
  rcases h with h | h
  · rw [if_pos (by simpa using h)]
  · by_cases hf : tool.tier == TIER_FORBIDDEN
    · rw [if_pos hf]
    · rw [if_neg hf, if_pos (by simpa using h)]

theorem sync_one_registers (execGov : String → RouteArgs → Except String RVal)
    (tool : MCPTool) (reg : Registry)
    (h1 : tool.status = STATUS_APPROVED) (h2 : tool.tier ≠ TIER_FORBIDDEN) :
    sync_one execGov tool reg = bridgeRegister execGov tool reg := by
  rw [sync_one, if_neg (by simpa using h2), if_neg (by simpa using h1)]

theorem get_ne_none_syncFold (execGov : String → RouteArgs → Except String RVal)
    (l : List MCPTool) (acc : Nat × Registry) (k : String)
    (h : dictGet k acc.2 ≠ Option.none) :
    dictGet k
      (l.foldl (fun acc t => (acc.1 + 1, bridgeRegister execGov t acc.2)) acc).2 ≠
      Option.none := by
  induction l generalizing acc with
  | nil => simpa using h
  | cons t rest ih =>
    simp only [List.foldl_cons]
    exact ih _ (bridgeRegister_get_ne_none execGov t acc.2 k h)

theorem get_mem_syncFold (execGov : String → RouteArgs → Except String RVal)
    (l : List MCPTool) (acc : Nat × Registry) (tool : MCPTool)
    (hmem : tool ∈ l) :
    dictGet (registryName tool)
      (l.foldl (fun acc t => (acc.1 + 1, bridgeRegister execGov t acc.2)) acc).2 ≠
      Option.none := by
  induction l generalizing acc with
  | nil => cases hmem
  | cons t rest ih =>
    simp only [List.foldl_cons]
    rcases List.mem_cons.mp hmem with rfl | hmem
    · exact get_ne_none_syncFold execGov rest _ (registryName tool)
        (by rw [bridgeRegister_get_self]; simp)
    · exact ih _ hmem

end MCPToolBridge

/-- C3: for an approved, non-forbidden tool, `sync_one` (or a `sync_all`
whose query includes the tool) makes `get_tool` of its registry key
`mcp__<name>` return a non-absent entry, and the bridge's `deregister` then
makes `get_tool` of that key return absent. -/
theorem c3_sync_resolve_deregister_round_trip
    (execGov : String → RouteArgs → Except String RVal)
    (tool : MCPTool) (db : List MCPTool) (reg : Registry)
    (h1 : tool.status = STATUS_APPROVED) (h2 : tool.tier ≠ TIER_FORBIDDEN)
    (hmem : tool ∈ db) (hact : tool.is_active = true) :
    ToolRegistry.get_tool (MCPToolBridge.registryName tool)
        (MCPToolBridge.sync_one execGov tool reg) ≠ Option.none ∧
    ToolRegistry.get_tool (MCPToolBridge.registryName tool)
        (MCPToolBridge.sync_all execGov db reg).2 ≠ Option.none ∧
    ToolRegistry.get_tool (MCPToolBridge.registryName tool)
        (MCPToolBridge.deregister tool
          (MCPToolBridge.sync_one execGov tool reg)).2 = Option.none := by
  have hreg := MCPToolBridge.sync_one_registers execGov tool reg h1 h2
  have hget : dictGet (MCPToolBridge.registryName tool)
      (MCPToolBridge.sync_one execGov tool reg) =
      some (MCPToolBridge.mcpEntry execGov tool) := by
    rw [hreg, MCPToolBridge.bridgeRegister_get_self]
  refine ⟨?_, ?_, ?_⟩
  · rw [ToolRegistry.get_tool, hget]
    simp
  · rw [ToolRegistry.get_tool, MCPToolBridge.sync_all]
    have hf : tool ∈ db.filter MCPToolBridge.syncQuery := by
      refine List.mem_filter.mpr ⟨hmem, ?_⟩
      simp [MCPToolBridge.syncQuery, h1, h2, hact]
    exact MCPToolBridge.get_mem_syncFold execGov _ (0, reg) tool hf
  · rw [ToolRegistry.get_tool, MCPToolBridge.deregister,
      ToolRegistry.deregister_tool,
      if_pos (dictContains_of_dictGet _ _ _ hget)]
    exact dictGet_dictErase_self _ _

/-- Witness for C3 at a concrete approved tool, store and registry. -/
theorem c3_witness :
    sampleApproved.status = STATUS_APPROVED ∧
    sampleApproved.tier ≠ TIER_FORBIDDEN ∧
    sampleApproved.is_active = true ∧
    ToolRegistry.get_tool "mcp__web_search"
        (MCPToolBridge.sync_one execGovStub sampleApproved initialRegistry) ≠
      Option.none ∧
    ToolRegistry.get_tool "mcp__web_search"
        (MCPToolBridge.deregister sampleApproved
          (MCPToolBridge.sync_one execGovStub sampleApproved initialRegistry)).2 =
      Option.none := by
  have h := c3_sync_resolve_deregister_round_trip execGovStub sampleApproved
    [sampleApproved] initialRegistry rfl (by decide) (List.mem_singleton.mpr rfl) rfl
  exact ⟨rfl, by decide, rfl, h.1, h.2.2⟩

-- ── C4: what sync_all registers, and its return value ─────────────────────────

namespace MCPToolBridge

theorem syncFold_count (execGov : String → RouteArgs → Except String RVal)
    (l : List MCPTool) (acc : Nat × Registry) :
    (l.foldl (fun acc t => (acc.1 + 1, bridgeRegister execGov t acc.2)) acc).1 =
      acc.1 + l.length := by
  induction l generalizing acc with
  | nil => simp
  | cons t rest ih =>
    simp only [List.foldl_cons, ih, List.length_cons]
    omega

theorem syncFold_frame (execGov : String → RouteArgs → Except String RVal)
    (l : List MCPTool) (acc : Nat × Registry) (k : String)
    (h : ∀ t ∈ l, registryName t ≠ k) :
    dictGet k
      (l.foldl (fun acc t => (acc.1 + 1, bridgeRegister execGov t acc.2)) acc).2 =
      dictGet k acc.2 := by
  induction l generalizing acc with
  | nil => simp
  | cons t rest ih =>
    simp only [List.foldl_cons]
    rw [ih _ (fun u hu => h u (List.mem_cons.mpr (Or.inr hu)))]
    exact bridgeRegister_get_ne execGov t acc.2 k (h t (List.mem_cons.mpr (Or.inl rfl)))

end MCPToolBridge

/-- C4 (amended): `sync_all` registers into the Live Registry exactly the
store's descriptors matching its query — `status = approved ∧
tier ≠ forbidden ∧ is_active` — and returns how many it registered: the count
equals the query-result size, every matching descriptor's key resolves
afterwards, and every key that is no matching descriptor's registry key is
untouched. -/
theorem c4_sync_all_registers_query_exactly
    (execGov : String → RouteArgs → Except String RVal)
    (db : List MCPTool) (reg : Registry) :
    (MCPToolBridge.sync_all execGov db reg).1 =
      (db.filter MCPToolBridge.syncQuery).length ∧
    (∀ t ∈ db, MCPToolBridge.syncQuery t = true →
      ToolRegistry.get_tool (MCPToolBridge.registryName t)
        (MCPToolBridge.sync_all execGov db reg).2 ≠ Option.none) ∧
    (∀ k, (∀ t ∈ db.filter MCPToolBridge.syncQuery,
        MCPToolBridge.registryName t ≠ k) →
      dictGet k (MCPToolBridge.sync_all execGov db reg).2 = dictGet k reg) := by
  refine ⟨?_, ?_, ?_⟩
  · rw [MCPToolBridge.sync_all, MCPToolBridge.syncFold_count]
    simp
  · intro t hmem hq
    rw [ToolRegistry.get_tool, MCPToolBridge.sync_all]
    exact MCPToolBridge.get_mem_syncFold execGov _ (0, reg) t
      (List.mem_filter.mpr ⟨hmem, hq⟩)
  · intro k hk
    rw [MCPToolBridge.sync_all]
    exact MCPToolBridge.syncFold_frame execGov _ (0, reg) k hk

/-- An approved, non-forbidden tool whose row is soft-deleted
(`is_active = False`). -/
def inactiveApproved : MCPTool :=
  { id := "33333333", name := "old_search", description := "a retired tool",
    server_url := "npx @old/mcp", tier := TIER_PRE_APPROVED,
    status := STATUS_APPROVED, is_active := false }

/-- Counterexample to C4 as stated: a store row with `status = approved` and
`tier ≠ forbidden` that `sync_all` nevertheless does not register (and does
not count), because its `is_active` flag is cleared. -/
theorem c4_counterexample :
    inactiveApproved.status = STATUS_APPROVED ∧
    inactiveApproved.tier ≠ TIER_FORBIDDEN ∧
    (MCPToolBridge.sync_all execGovStub [inactiveApproved] []).1 = 0 ∧
    ToolRegistry.get_tool (MCPToolBridge.registryName inactiveApproved)
        (MCPToolBridge.sync_all execGovStub [inactiveApproved] []).2 =
      Option.none := by
  exact ⟨rfl, by decide, rfl, rfl⟩

/-- Witness for C4's amended statement at a concrete store containing one
matching and one non-matching row. -/
theorem c4_witness :
    (MCPToolBridge.sync_all execGovStub [sampleApproved, inactiveApproved]
        initialRegistry).1 =
      ([sampleApproved, inactiveApproved].filter MCPToolBridge.syncQuery).length ∧
    ToolRegistry.get_tool (MCPToolBridge.registryName sampleApproved)
        (MCPToolBridge.sync_all execGovStub [sampleApproved, inactiveApproved]
          initialRegistry).2 ≠ Option.none := by
  refine ⟨(c4_sync_all_registers_query_exactly execGovStub _ _).1, ?_⟩
  exact (c4_sync_all_registers_query_exactly execGovStub
      [sampleApproved, inactiveApproved] initialRegistry).2.1 sampleApproved
    (by simp) (by decide)

-- ── C5: fixed tier → authorized-callers mapping ───────────────────────────────

/-- C5: every entry `_register` projects carries the fixed tier →
authorized-callers mapping: all four agent tiers for `pre_approved`, only the
two most-privileged agent tiers for `restricted`, and the empty set for
`forbidden`. -/
theorem c5_projected_entries_use_tier_mapping
    (execGov : String → RouteArgs → Except String RVal)
    (tool : MCPTool) (reg : Registry) (e : ToolEntry)
    (h : ToolRegistry.get_tool (MCPToolBridge.registryName tool)
        (MCPToolBridge.bridgeRegister execGov tool reg) = some e) :
    e.authorized_tiers = MCPToolBridge.tierToAuthorized tool.tier ∧
    MCPToolBridge.tierToAuthorized TIER_PRE_APPROVED =
      ["0xxxx", "1xxxx", "2xxxx", "3xxxx"] ∧
    MCPToolBridge.tierToAuthorized TIER_RESTRICTED = ["0xxxx", "1xxxx"] ∧
    MCPToolBridge.tierToAuthorized TIER_FORBIDDEN = [] := by
  rw [ToolRegistry.get_tool, MCPToolBridge.bridgeRegister_get_self] at h
  refine ⟨?_, rfl, rfl, rfl⟩
  cases h with
  | refl => rfl

/-- A sample restricted-tier approved tool. -/
def sampleRestricted : MCPTool :=
  { id := "44444444", name := "db_admin", description := "database admin",
    server_url := "npx @db/mcp", tier := TIER_RESTRICTED,
    status := STATUS_APPROVED }

/-- Witness for C5 at a concrete restricted-tier registration. -/
theorem c5_witness :
    (MCPToolBridge.mcpEntry execGovStub sampleRestricted).authorized_tiers =
      MCPToolBridge.tierToAuthorized sampleRestricted.tier ∧
    MCPToolBridge.tierToAuthorized sampleRestricted.tier = ["0xxxx", "1xxxx"] := by
  refine ⟨?_, rfl⟩
  exact (c5_projected_entries_use_tier_mapping execGovStub sampleRestricted []
    (MCPToolBridge.mcpEntry execGovStub sampleRestricted)
    (by rw [ToolRegistry.get_tool, MCPToolBridge.bridgeRegister_get_self])).1

-- ── C6: sync_one is a guarded no-op / (re)registration ────────────────────────

/-- C6: `sync_one` on a descriptor that is not approved or is forbidden-tier
leaves the registry completely unchanged; on an approved non-forbidden
descriptor it (re)registers the descriptor's entry under its key. -/
theorem c6_sync_one_noop_or_reregisters
    (execGov : String → RouteArgs → Except String RVal)
    (tool : MCPTool) (reg : Registry) :
    ((tool.tier = TIER_FORBIDDEN ∨ tool.status ≠ STATUS_APPROVED) →
      MCPToolBridge.sync_one execGov tool reg = reg) ∧
    (tool.tier ≠ TIER_FORBIDDEN → tool.status = STATUS_APPROVED →
      MCPToolBridge.sync_one execGov tool reg =
        MCPToolBridge.bridgeRegister execGov tool reg) := by
  exact ⟨MCPToolBridge.sync_one_noop execGov tool reg,
    fun h2 h1 => MCPToolBridge.sync_one_registers execGov tool reg h1 h2⟩

/-- A proposed (not yet approved) tool. -/
def samplePending : MCPTool :=
  { id := "55555555", name := "beta_tool", description := "pending tool",
    server_url := "npx @beta/mcp", tier := TIER_PRE_APPROVED,
    status := "pending" }

/-- Witness for C6: a pending tool and a forbidden tool are both no-ops on
the built-in registry; an approved tool registers. -/
theorem c6_witness :
    MCPToolBridge.sync_one execGovStub samplePending initialRegistry =
      initialRegistry ∧
    MCPToolBridge.sync_one execGovStub sampleForbidden initialRegistry =
      initialRegistry ∧
    MCPToolBridge.sync_one execGovStub sampleApproved initialRegistry =
      MCPToolBridge.bridgeRegister execGovStub sampleApproved initialRegistry := by
  refine ⟨?_, ?_, ?_⟩
  · exact (c6_sync_one_noop_or_reregisters execGovStub samplePending
      initialRegistry).1 (Or.inr (by decide))
  · exact (c6_sync_one_noop_or_reregisters execGovStub sampleForbidden
      initialRegistry).1 (Or.inl rfl)
  · exact (c6_sync_one_noop_or_reregisters execGovStub sampleApproved
      initialRegistry).2 (by decide) rfl

-- ── C7: dispatch never propagates an exception ────────────────────────────────

/-- C7: dispatch is total and never re-raises — for every registry, tool name
and arguments, `execute_tool_async` and `execute_tool` return the structured
`{"status": "error", ...}` dict when the name is unregistered or the handle
raises, and the handle's own result otherwise. -/
theorem c7_dispatch_catches_all_failures (reg : Registry) (name : String)
    (args : RouteArgs) :
    (ToolRegistry.get_tool name reg = Option.none →
      ToolRegistry.execute_tool_async reg name args =
        ToolRegistry.errorResult ("Tool '" ++ name ++ "' not found") ∧
      ToolRegistry.execute_tool reg name args =
        ToolRegistry.errorResult ("Tool '" ++ name ++ "' not found")) ∧
    (∀ t exc, ToolRegistry.get_tool name reg = some t →
      t.function args = Except.error exc →
      ToolRegistry.execute_tool_async reg name args = ToolRegistry.errorResult exc ∧
      ToolRegistry.execute_tool reg name args = ToolRegistry.errorResult exc) ∧
    (∀ t v, ToolRegistry.get_tool name reg = some t →
      t.function args = Except.ok v →
      ToolRegistry.execute_tool_async reg name args = v ∧
      ToolRegistry.execute_tool reg name args = v) := by
  refine ⟨?_, ?_, ?_⟩
  · intro h
    rw [ToolRegistry.execute_tool_async, ToolRegistry.execute_tool, h]
    exact ⟨rfl, rfl⟩
  · intro t exc hget hfn
    rw [ToolRegistry.execute_tool_async, ToolRegistry.execute_tool, hget]
    simp only [hfn]
    exact ⟨trivial, trivial⟩
  · intro t v hget hfn
    rw [ToolRegistry.execute_tool_async, ToolRegistry.execute_tool, hget]
    simp only [hfn]
    exact ⟨trivial, trivial⟩

/-- A registry holding one always-raising tool. -/
def raisingRegistry : Registry :=
  ToolRegistry.register_tool "flaky" "always raises"
    (fun _ => Except.error "boom") [] (some ["0xxxx"]) []

/-- Witness for C7: the raising handle and an unknown name both come back as
structured error results. -/
theorem c7_witness :
    ToolRegistry.execute_tool_async raisingRegistry "flaky"
        (RouteArgs.direct []) = ToolRegistry.errorResult "boom" ∧
    ToolRegistry.execute_tool_async raisingRegistry "missing"
        (RouteArgs.direct []) =
      ToolRegistry.errorResult "Tool 'missing' not found" := by
  refine ⟨?_, ?_⟩
  · exact ((c7_dispatch_catches_all_failures raisingRegistry "flaky"
      (RouteArgs.direct [])).2.1 _ "boom" rfl rfl).1
  · exact ((c7_dispatch_catches_all_failures raisingRegistry "missing"
      (RouteArgs.direct [])).1 rfl).1

-- ── C8: the audit fingerprint ─────────────────────────────────────────────────

theorem sorted_keyLt_of_nodup (l : List (String × PyVal))
    (hs : l.Sorted keyLe) (hnd : (l.map Prod.fst).Nodup) : l.Sorted keyLt := by
  have hne : l.Pairwise (fun a b => a.1 ≠ b.1) := List.pairwise_map.mp hnd
  exact (hs.and hne).imp (fun h => lt_of_le_of_ne h.1 h.2)

theorem insertionSort_eq_of_perm (p q : List (String × PyVal))
    (hperm : p.Perm q) (hnd : (p.map Prod.fst).Nodup) :
    p.insertionSort keyLe = q.insertionSort keyLe := by
  have hndq : (q.map Prod.fst).Nodup := (hperm.map Prod.fst).nodup hnd
  have hndp' : ((p.insertionSort keyLe).map Prod.fst).Nodup :=
    (((List.perm_insertionSort keyLe p).map Prod.fst).symm).nodup hnd
  have hndq' : ((q.insertionSort keyLe).map Prod.fst).Nodup :=
    (((List.perm_insertionSort keyLe q).map Prod.fst).symm).nodup hndq
  exact List.eq_of_perm_of_sorted
    ((List.perm_insertionSort keyLe p).trans
      (hperm.trans (List.perm_insertionSort keyLe q).symm))
    (sorted_keyLt_of_nodup _ (List.sorted_insertionSort keyLe p) hndp')
    (sorted_keyLt_of_nodup _ (List.sorted_insertionSort keyLe q) hndq')

theorem sha256hexChars_length (msg : List Nat) :
    (sha256hexChars msg).length = 64 := by
  simp [sha256hexChars, wordHex]

theorem nibbleChar_mem_hex (n : Nat) : nibbleChar n ∈ "0123456789abcdef".data := by
  have hb : ∀ m, m < 16 →
      "0123456789abcdef".data.getD m '0' ∈ "0123456789abcdef".data := by decide
  rw [nibbleChar]
  exact hb (n % 16) (Nat.mod_lt _ (by norm_num))

theorem wordHex_mem_hex (w : Nat) (c : Char) (h : c ∈ wordHex w) :
    c ∈ "0123456789abcdef".data := by
  simp only [wordHex, List.mem_cons, List.not_mem_nil, or_false] at h
  rcases h with rfl | rfl | rfl | rfl | rfl | rfl | rfl | rfl <;>
    exact nibbleChar_mem_hex _

theorem sha256hexChars_mem_hex (msg : List Nat) (c : Char)
    (h : c ∈ sha256hexChars msg) : c ∈ "0123456789abcdef".data := by
  simp only [sha256hexChars, List.mem_append] at h
  rcases h with ((((((h | h) | h) | h) | h) | h) | h) | h <;>
    exact wordHex_mem_hex _ _ h

/-- C8: `hash_params` is a stable fingerprint of the parameter mapping —
equal key-value mappings (any insertion order) hash identically, the result
is a fixed-length 16-character lowercase-hexadecimal string, and (having
length 16) it is not the raw serialized parameters whenever those have any
other length. -/
theorem c8_hash_params_stable_fingerprint (p q : List (String × PyVal))
    (hperm : p.Perm q) (hnd : (p.map Prod.fst).Nodup) :
    hash_params p = hash_params q ∧
    (hash_params p).length = 16 ∧
    (∀ c ∈ (hash_params p).data, c ∈ "0123456789abcdef".data) ∧
    ((jsonDumpsSorted p).length ≠ 16 → hash_params p ≠ jsonDumpsSorted p) := by
  have hdumps : jsonDumpsSorted p = jsonDumpsSorted q := by
    rw [jsonDumpsSorted, jsonDumpsSorted, insertionSort_eq_of_perm p q hperm hnd]
  have h16 : (hash_params p).length = 16 := by
    rw [hash_params, String.length_mk, List.length_take, sha256hexChars_length]
    norm_num
  refine ⟨by rw [hash_params, hash_params, hdumps], h16, ?_, ?_⟩
  · intro c hc
    rw [hash_params] at hc
    exact sha256hexChars_mem_hex _ c (List.take_subset 16 _ hc)
  · intro hlen heq
    exact hlen (by rw [← heq]; exact h16)

/-- Sample params dict. -/
def c8p : List (String × PyVal) :=
  [("query", PyVal.str "status report"), ("limit", PyVal.int 5),
   ("dry_run", PyVal.bool false)]

/-- The same mapping in a different insertion order. -/
def c8q : List (String × PyVal) :=
  [("dry_run", PyVal.bool false), ("query", PyVal.str "status report"),
   ("limit", PyVal.int 5)]

/-- Witness for C8 at two concrete orderings of the same params dict. -/
theorem c8_witness :
    c8p.Perm c8q ∧ (c8p.map Prod.fst).Nodup ∧
    hash_params c8p = hash_params c8q ∧ (hash_params c8p).length = 16 := by
  refine ⟨by decide, by decide, ?_, ?_⟩
  · exact (c8_hash_params_stable_fingerprint c8p c8q (by decide) (by decide)).1
  · exact (c8_hash_params_stable_fingerprint c8p c8q (by decide) (by decide)).2.1

-- ── C9: the bridge only ever touches mcp__-prefixed keys ──────────────────────

/-- C9: every registry key the bridge writes or removes is of the form
`mcp__<name>`; consequently `sync_all`, `sync_one` and the bridge's
`deregister` leave every key that does not start with `mcp__` — in particular
the built-in tools — exactly as it was. -/
theorem c9_bridge_preserves_non_mcp_keys
    (execGov : String → RouteArgs → Except String RVal)
    (db : List MCPTool) (tool : MCPTool) (reg : Registry) (k : String)
    (h : ∀ s, k ≠ "mcp__" ++ s) :
    (∃ s, MCPToolBridge.registryName tool = "mcp__" ++ s) ∧
    dictGet k (MCPToolBridge.sync_all execGov db reg).2 = dictGet k reg ∧
    dictGet k (MCPToolBridge.sync_one execGov tool reg) = dictGet k reg ∧
    dictGet k (MCPToolBridge.deregister tool reg).2 = dictGet k reg := by
  have hne : ∀ t : MCPTool, MCPToolBridge.registryName t ≠ k :=
    fun t heq => h t.name heq.symm
  refine ⟨⟨tool.name, rfl⟩, ?_, ?_, ?_⟩
  · rw [MCPToolBridge.sync_all]
    exact MCPToolBridge.syncFold_frame execGov _ (0, reg) k (fun t _ => hne t)
  · rw [MCPToolBridge.sync_one]
    by_cases hf : tool.tier == TIER_FORBIDDEN
    · rw [if_pos hf]
    · rw [if_neg hf]
      by_cases hs : tool.status != STATUS_APPROVED
      · rw [if_pos hs]
      · rw [if_neg hs]
        exact MCPToolBridge.bridgeRegister_get_ne execGov tool reg k (hne tool)
  · rw [MCPToolBridge.deregister, ToolRegistry.deregister_tool]
    by_cases hc : dictContains (MCPToolBridge.registryName tool) reg
    · rw [if_pos hc]
      exact dictGet_dictErase_ne k _ reg (hne tool)
    · rw [if_neg hc]

/-- The built-in key `read_file` does not carry the `mcp__` prefix. -/
theorem readFileKeyNotMCP : ∀ s : String, "read_file" ≠ "mcp__" ++ s := by
  intro s heq
  have hdata : "read_file".data = "mcp__".data ++ s.data := by
    rw [← String.data_append]
    exact congrArg String.data heq
  have hr : some 'r' = some 'm' := by
    calc some 'r' = "read_file".data.head? := rfl
    _ = ("mcp__".data ++ s.data).head? := by rw [hdata]
    _ = some 'm' := rfl
  exact absurd hr (by decide)

/-- Witness for C9 at the built-in key `read_file`, the initial registry, and
concrete bridge operations. -/
theorem c9_witness :
    dictGet "read_file"
        (MCPToolBridge.sync_all execGovStub [sampleApproved, sampleForbidden]
          initialRegistry).2 = dictGet "read_file" initialRegistry ∧
    dictGet "read_file"
        (MCPToolBridge.sync_one execGovStub sampleApproved initialRegistry) =
      dictGet "read_file" initialRegistry ∧
    dictGet "read_file"
        (MCPToolBridge.deregister sampleApproved initialRegistry).2 =
      dictGet "read_file" initialRegistry := by
  have h := c9_bridge_preserves_non_mcp_keys execGovStub
    [sampleApproved, sampleForbidden] sampleApproved initialRegistry "read_file"
    readFileKeyNotMCP
  exact ⟨h.2.1, h.2.2.1, h.2.2.2⟩

-- ── C10: browser_screenshot is unreachable for every tier ─────────────────────

theorem dictGet_list_tools_none (reg : Registry) (k tier : String)
    (h : ∀ e : ToolEntry, (k, e) ∈ reg → e.authorized_tiers.contains tier = false) :
    dictGet k (ToolRegistry.list_tools reg tier) = Option.none := by
  induction reg with
  | nil => rfl
  | cons p rest ih =>
    have ih' := ih (fun e he => h e (List.mem_cons.mpr (Or.inr he)))
    rw [ToolRegistry.list_tools] at ih' ⊢
    rw [List.filter_cons]
    by_cases hp : p.2.authorized_tiers.contains tier = true
    · rw [if_pos hp, List.map_cons, dictGet]
      by_cases hk : p.1 = k
      · exfalso
        have hmem : (k, p.2) ∈ p :: rest := by
          rw [← hk]
          exact List.mem_cons.mpr (Or.inl Prod.mk.eta.symm)
        rw [h p.2 hmem] at hp
        cases hp
      · rw [if_neg hk]
        exact ih'
    · rw [if_neg hp]
      exact ih'

/-- C10: `browser_screenshot` is registered with an empty authorized-tier
set, so `list_tools` omits it for every agent tier and the `/tools/execute`
route's tier gate rejects every caller with a 403. -/
theorem c10_browser_screenshot_unreachable (agent_tier agent_id : String)
    (params : List (String × PyVal)) (tok : Bool) (tno : Option String) :
    dictGet "browser_screenshot"
        (ToolRegistry.list_tools initialRegistry agent_tier) = Option.none ∧
    executeRoute initialRegistry "browser_screenshot" params tok tno
        agent_tier agent_id =
      RouteResult.httpError 403
        ("Agent tier '" ++ agent_tier ++ "' is not authorised to use '" ++
          "browser_screenshot" ++ "'") := by
  constructor
  · apply dictGet_list_tools_none
    intro e he
    simp [initialRegistry, ToolRegistry.register_tool, dictInsert] at he
    subst he
    rfl
  · rfl
